import Mathlib

/-!
Shallow embedding of the email-campaign server (`server.js`): the job store,
the SSE progress broadcaster, the per-recipient delivery loop and the two
template renderers, together with proofs of the specification claims.

Strings are modelled as `List Char`; JavaScript truthiness of a string-valued
field is modelled by non-emptiness (`undefined` and `''` are both falsy, so an
absent field is represented by the empty string).
-/

set_option maxHeartbeats 1000000

/-- One recipient record (one spreadsheet row).  Field names follow the
column names read by `processEmailJob` / `sendEmail`.  An absent field is
the empty string (JS `undefined` and `''` are equally falsy in the code). -/
structure Row where
  Name : String
  Email : String
  Company : String
  Role : String
  Link : String
deriving DecidableEq, Repr

/-- JS truthiness of a string value (`!s` is true exactly for `''` and
`undefined`, both of which we model as `""`). -/
def truthy (s : String) : Bool := !(s == "")

/-- The row guard of the delivery loop:
`!row.Name || !row.Email || !row.Company || !row.Role`. -/
def missingRequired (r : Row) : Bool :=
  !truthy r.Name || !truthy r.Email || !truthy r.Company || !truthy r.Role

/-- One event pushed over the SSE channel (`sendToClient` payloads). -/
inductive Event where
  | progress (total current success failed : Nat)
  | log (message : String)
  | complete (success failed : Nat)
deriving DecidableEq, Repr

/-- One entry of the `emailJobs` map (the Job Store). -/
structure Job where
  jobId : String
  data : List Row
  email : String
  password : String
  userType : String
  customEmailBody : String
  status : String
  total : Nat
  current : Nat
  success : Nat
  failed : Nat
deriving DecidableEq, Repr

/-- `Name.split(' ')` — JavaScript `String.split` with the single-character
separator `' '`; the result is never empty (`''.split(' ')` is `['']`). -/
def splitOnChar (sep : Char) : List Char → List (List Char)
  | [] => [[]]
  | c :: t =>
    match splitOnChar sep t with
    | [] => if c = sep then [[], []] else [[c]]
    | s :: rest => if c = sep then [] :: s :: rest else (c :: s) :: rest

/-- `nameParts[0]` where `nameParts = Name.split(' ')` (`sendEmail`,
lines 284-285). -/
def firstNameOf (name : List Char) : List Char :=
  (splitOnChar ' ' name).headD []

/-- Modelled from the spec: the "first whitespace-delimited token of the
name field" — leading whitespace dropped, then the maximal run of
non-whitespace characters.  Used only to compare the spec's wording with
the code's `split(' ')[0]`. -/
def specFirstWhitespaceToken (name : List Char) : List Char :=
  (name.dropWhile Char.isWhitespace).takeWhile (fun c => !c.isWhitespace)

/-- The literal text the conditional-link regex
`/\$\{Link \? \`(.*?)\` : ''\}/g` must match at the start of a match:
the characters of `"${Link ? \`"`. -/
def openTok : List Char := "$\x7bLink ? `".toList

/-- The literal closing text of a conditional-link match: the characters of
`"\` : ''}"`. -/
def closeTok : List Char := "` : \x27\x27\x7d".toList

/-- The lazy body scan `(.*?)` of the conditional-link regex: consume
characters (none of which may be a line terminator — the ECMAScript `.`
without the dotAll flag matches no `\n`, `\r`, U+2028 or U+2029) until the
first occurrence of `closeTok`; return the consumed content and the
remainder after `closeTok`. -/
def scanContent : List Char → Option (List Char × List Char)
  | [] => none
  | c :: t =>
    if closeTok.isPrefixOf (c :: t) then some ([], (c :: t).drop closeTok.length)
    else if c = '\n' ∨ c = '\r' ∨ c = '\u2028' ∨ c = '\u2029' then none
    else (scanContent t).map (fun p => (c :: p.1, p.2))

/-- Try to match the conditional-link regex at the head of `s`: `openTok`,
then a lazily-matched body, then `closeTok`.  Returns the body and the
text after the match. -/
def findCond (s : List Char) : Option (List Char × List Char) :=
  if openTok.isPrefixOf s then scanContent (s.drop openTok.length) else none

/-- Fueled worker for `resolveCond`.  Each step either consumes a whole
conditional-link match (replacing it by its body when `link` is true and by
nothing otherwise — the replacement callback `Link ? content : ''`) or
copies one character, exactly like a global regex replace. -/
def resolveCondAux (link : Bool) : Nat → List Char → List Char
  | 0, s => s
  | fuel + 1, s =>
    match findCond s with
    | some p => (if link then p.1 else []) ++ resolveCondAux link fuel p.2
    | none =>
      match s with
      | [] => []
      | c :: t => c :: resolveCondAux link fuel t

/-- `emailTemplate.replace(linkRegex, (match, content) => Link ? content : '')`
(`sendEmail`, lines 648-651). -/
def resolveCond (link : Bool) (s : List Char) : List Char :=
  resolveCondAux link s.length s

/-- Fueled worker for `replaceAll`.  Mirrors a JS global replace with a
literal pattern: scan left to right, emit the replacement at each match and
continue after the matched text (the replacement itself is never rescanned). -/
def replaceAllAux (needle rep : List Char) : Nat → List Char → List Char
  | 0, s => s
  | fuel + 1, s =>
    match s with
    | [] => []
    | c :: t =>
      if needle.isPrefixOf (c :: t) then
        rep ++ replaceAllAux needle rep fuel ((c :: t).drop needle.length)
      else
        c :: replaceAllAux needle rep fuel t

/-- `s.replace(/pattern/g, rep)` for a literal `pattern`. -/
def replaceAll (needle rep s : List Char) : List Char :=
  replaceAllAux needle rep s.length s

/-- The plain placeholder `${firstName}`. -/
def firstNamePH : List Char := "$\x7bfirstName\x7d".toList

/-- The plain placeholder `${Name}`. -/
def namePH : List Char := "$\x7bName\x7d".toList

/-- The plain placeholder `${Company}`. -/
def companyPH : List Char := "$\x7bCompany\x7d".toList

/-- The plain placeholder `${Email}`. -/
def emailPH : List Char := "$\x7bEmail\x7d".toList

/-- The plain placeholder `${Role}`. -/
def rolePH : List Char := "$\x7bRole\x7d".toList

/-- The plain placeholder `${Link}`. -/
def linkPH : List Char := "$\x7bLink\x7d".toList

/-- The chain of plain placeholder replacements of `sendEmail`
(lines 654-660), applied in source order: firstName, Name, Company, Email,
Role, Link (the Link replacement value is `Link || ''`, which is the Link
field itself under our `"" = absent` encoding). -/
def substPlain (r : Row) (s : List Char) : List Char :=
  replaceAll linkPH r.Link.toList
    (replaceAll rolePH r.Role.toList
      (replaceAll emailPH r.Email.toList
        (replaceAll companyPH r.Company.toList
          (replaceAll namePH r.Name.toList
            (replaceAll firstNamePH (firstNameOf r.Name.toList) s)))))
/-- Verbatim text extracted from server.js (template-literal segment). -/
def builtinPart1 : List Char := "\n        <!DOCTYPE html>\n        <html>\n        <head>\n          <meta charset=\"utf-8\">\n          <meta name=\"viewport\" content=\"width=device-width, initial-scale=1\">\n          <style>\n            body, p, div, a \x7b\n              font-family: Arial, sans-serif;\n              line-height: 1.6;\n              color: #2c3e50;\n              margin: 0;\n              padding: 0;\n            \x7d\n            \n            .container \x7b\n              max-width: 600px;\n              padding: 20px;\n            \x7d\n  \n             .greeting \x7b\n              margin: 0;\n            \x7d\n            \n            .highlight \x7b\n              color: #2c3e50;\n              font-weight: bold;\n            \x7d\n            \n            .experience \x7b\n              margin: 15px 0;\n              padding: 15px;\n              background: #f9f9f9;\n              border-radius: 4px;\n            \x7d\n            \n            .tech-skills \x7b\n              display: inline-block;\n              background: #f0f0f0;\n              padding: 3px 8px;\n              margin: 2px;\n              border-radius: 3px;\n              font-size: 13px;\n              color: #2c3e50;\n            \x7d\n            \n            .links \x7b\n              margin: 20px 0;\n              text-align: left;\n            \x7d\n            \n            .link-button \x7b\n              display: inline-block;\n              margin: 5px 12px 5px 0;\n              padding: 10px 20px;\n              background: linear-gradient(135deg, #2c3e50 0%, #3498db 100%);\n              color: white !important;\n              text-decoration: none;\n              border-radius: 6px;\n              font-size: 14px;\n              font-weight: 500;\n              letter-spacing: 0.3px;\n              border: 2px solid transparent;\n              box-shadow: 0 2px 4px rgba(0, 0, 0, 0.1);\n              transition: all 0.3s ease;\n            \x7d\n            \n            .link-button:hover \x7b\n              background: linear-gradient(135deg, #3498db 0%, #2c3e50 100%);\n              transform: translateY(-1px);\n              box-shadow: 0 4px 8px rgba(0, 0, 0, 0.15);\n            \x7d\n            \n            .link-button:active \x7b\n              transform: translateY(1px);\n              box-shadow: 0 1px 2px rgba(0, 0, 0, 0.1);\n            \x7d\n  \n            .link-button.resume \x7b\n              background: linear-gradient(135deg, #2ecc71 0%, #27ae60 100%);\n            \x7d\n            \n            .link-button.resume:hover \x7b\n              background: linear-gradient(135deg, #27ae60 0%, #2ecc71 100%);\n            \x7d\n  \n            .link-button.linkedin \x7b\n              background: linear-gradient(135deg, #0077B5 0%, #00A0DC 100%);\n            \x7d\n            \n            .link-button.linkedin:hover \x7b\n              background: linear-gradient(135deg, #00A0DC 0%, #0077B5 100%);\n            \x7d\n  \n            .link-button.job \x7b\n              background: linear-gradient(135deg, #2c3e50 0%, #34495e 100%);\n            \x7d\n            \n            .link-button.job:hover \x7b\n              background: linear-gradient(135deg, #34495e 0%, #2c3e50 100%);\n            \x7d\n            \n            hr \x7b\n              border: none;\n              border-top: 1px solid #eee;\n              margin: 20px 0;\n            \x7d\n            \n            ul \x7b\n              padding-left: 20px;\n              margin: 10px 0;\n            \x7d\n            \n            li \x7b\n              margin: 8px 0;\n            \x7d\n            \n            p \x7b\n              margin: 15px 0;\n            \x7d\n            \n            @media only screen and (max-width: 600px) \x7b\n              .container \x7b\n                width: 100% !important;\n                padding: 10px !important;\n              \x7d\n              \n              .link-button \x7b\n                display: inline-block;\n                margin: 5px 10px 5px 0;\n              \x7d\n            \x7d\n          </style>\n        </head>\n        <body>\n          <div class=\"container\">\n            <p class=\"greeting\">Hi ".toList

/-- Verbatim text extracted from server.js (template-literal segment). -/
def builtinPart2 : List Char := ",</p>\n            \n            <p>I hope you\x27re doing well! I came across the <span class=\"highlight\">".toList

/-- Verbatim text extracted from server.js (template-literal segment). -/
def builtinPart3 : List Char := "</span> position at <span class=\"highlight\">".toList

/-- Verbatim text extracted from server.js (template-literal segment). -/
def builtinPart4 : List Char := "</span> and am very interested in the opportunity. I\x27m currently working as an SDE-2 at Greenlight, focusing on backend development and payment systems.</p>\n            \n            <p>Here\x27s an overview of my experience:</p>\n            \n            <div class=\"experience\">\n              <ul>\n                <li><strong>Greenlight (SDE-2 Backend | Oct 2023 - Present)</strong>\n                  <ul>\n                    <li>Led development of transaction processing microservices using Java Spring Boot, Node.js, and AWS, handling mission-critical payment operations</li>\n                    <li>Architected card payment systems with comprehensive workflows for authorization, settlement, and 3DS authentication</li>\n                    <li>Built flexible spend control system and implemented reconciliation processes, improving transaction accuracy by 99.9%</li>\n                  </ul>\n                </li>\n                \n                <li><strong>MPL (SDE-1 | Dec 2022 - Sept 2023)</strong>\n                  - Led battle limiter feature development and contributed to Brazil market expansion through poker-ops service\n                </li>\n                \n                <li><strong>ULA (SDE-1 | July 2022 - Nov 2022)</strong>\n                  - Implemented pickup-point optimization and recommendation engine, reducing logistics costs by 65% and improving adoption by 35%\n                </li>\n                \n                <li><strong>Amazon (SDE Intern | Feb 2022 - June 2022)</strong>\n                  - Automated manual processes using Java-mapper-beans and implemented extended log retention using Timber\n                </li>\n              </ul>\n            </div>\n            \n            <p>Technical skills I frequently use:</p>\n            <p>\n              <span class=\"tech-skills\">Java Spring Boot</span>\n              <span class=\"tech-skills\">Kotlin</span>\n              <span class=\"tech-skills\">Node.js</span>\n              <span class=\"tech-skills\">PostgreSQL</span>\n              <span class=\"tech-skills\">AWS</span>\n              <span class=\"tech-skills\">Microservices</span>\n              <span class=\"tech-skills\">RESTful APIs</span>\n            </p>\n            \n            <p>A few important points:</p>\n            <ul>\n              <li>Notice period is 30 days (negotiable)</li>\n              <li>Available for immediate interviews</li>\n              <li>Strong background in payment systems and scalable architectures</li>\n            </ul>\n            \n            <div class=\"links\">\n              <a href=\"https://drive.google.com/file/d/177azdELnL0AGwqkAHtxiji7fbvkObbbh/view\" class=\"link-button resume\">📄 My Resume</a>\n              <a href=\"https://www.linkedin.com/in/navneet-khandelwal-05091a169/\" class=\"link-button linkedin\">👤 LinkedIn Profile</a>\n              ".toList

/-- Verbatim text extracted from server.js (template-literal segment). -/
def condFragPre : List Char := "<a href=\"".toList

/-- Verbatim text extracted from server.js (template-literal segment). -/
def condFragPost : List Char := "\" class=\"link-button job\">🔍 Job Details</a>".toList

/-- Verbatim text extracted from server.js (template-literal segment). -/
def builtinPart5 : List Char := "\n            </div>\n            \n            <hr>\n            \n            <p>I would be delighted to discuss how I can contribute to ".toList

/-- Verbatim text extracted from server.js (template-literal segment). -/
def builtinPart6 : List Char := ".</p>\n            \n            <p>Thank you for your time and consideration. Looking forward to hearing from you!<br>\n            Best regards,<br>\n            Navneet Khandelwal<br>\n            +91 9773549557</p>\n          </div>\n        </body>\n        </html>\n      ".toList

/-- Verbatim text extracted from server.js (template-literal segment). -/
def emailStyles : List Char := "\n        <style>\n          body, p, div, a \x7b\n            font-family: Arial, sans-serif;\n            line-height: 1.6;\n            color: #2c3e50;\n            margin: 0;\n            padding: 0;\n          \x7d\n          \n          .container \x7b\n            max-width: 600px;\n            padding: 20px;\n          \x7d\n  \n          .greeting \x7b\n            margin: 0;\n          \x7d\n          \n          .highlight \x7b\n            color: #2c3e50;\n            font-weight: bold;\n          \x7d\n          \n          .experience \x7b\n            margin: 15px 0;\n            padding: 15px;\n            background: #f9f9f9;\n            border-radius: 4px;\n          \x7d\n          \n          .tech-skills \x7b\n            display: inline-block;\n            background: #f0f0f0;\n            padding: 3px 8px;\n            margin: 2px;\n            border-radius: 3px;\n            font-size: 13px;\n            color: #2c3e50;\n          \x7d\n          \n          .links \x7b\n            margin: 20px 0;\n            text-align: left;\n          \x7d\n          \n          .link-button \x7b\n            display: inline-block;\n            margin: 5px 12px 5px 0;\n            padding: 10px 20px;\n            background: linear-gradient(135deg, #2c3e50 0%, #3498db 100%);\n            color: white !important;\n            text-decoration: none;\n            border-radius: 6px;\n            font-size: 14px;\n            font-weight: 500;\n            letter-spacing: 0.3px;\n            border: 2px solid transparent;\n            box-shadow: 0 2px 4px rgba(0, 0, 0, 0.1);\n            transition: all 0.3s ease;\n          \x7d\n          \n          .link-button:hover \x7b\n            background: linear-gradient(135deg, #3498db 0%, #2c3e50 100%);\n            transform: translateY(-1px);\n            box-shadow: 0 4px 8px rgba(0, 0, 0, 0.15);\n          \x7d\n          \n          .link-button:active \x7b\n            transform: translateY(1px);\n            box-shadow: 0 1px 2px rgba(0, 0, 0, 0.1);\n          \x7d\n  \n          .link-button.resume \x7b\n            background: linear-gradient(135deg, #2ecc71 0%, #27ae60 100%);\n          \x7d\n          \n          .link-button.resume:hover \x7b\n            background: linear-gradient(135deg, #27ae60 0%, #2ecc71 100%);\n          \x7d\n  \n          .link-button.linkedin \x7b\n            background: linear-gradient(135deg, #0077B5 0%, #00A0DC 100%);\n          \x7d\n          \n          .link-button.linkedin:hover \x7b\n            background: linear-gradient(135deg, #00A0DC 0%, #0077B5 100%);\n          \x7d\n  \n          .link-button.job \x7b\n            background: linear-gradient(135deg, #2c3e50 0%, #34495e 100%);\n          \x7d\n          \n          .link-button.job:hover \x7b\n            background: linear-gradient(135deg, #34495e 0%, #2c3e50 100%);\n          \x7d\n          \n          hr \x7b\n            border: none;\n            border-top: 1px solid #eee;\n            margin: 20px 0;\n          \x7d\n          \n          ul \x7b\n            padding-left: 20px;\n            margin: 10px 0;\n          \x7d\n          \n          li \x7b\n            margin: 8px 0;\n          \x7d\n          \n          p \x7b\n            margin: 15px 0;\n          \x7d\n          \n          @media only screen and (max-width: 600px) \x7b\n            .container \x7b\n              width: 100% !important;\n              padding: 10px !important;\n            \x7d\n            \n            .link-button \x7b\n              display: inline-block;\n              margin: 5px 10px 5px 0;\n            \x7d\n          \x7d\n        </style>\n      ".toList

/-- Verbatim text extracted from server.js (template-literal segment). -/
def customWrapPre : List Char := "\n        <!DOCTYPE html>\n        <html>\n        <head>\n          <meta charset=\"utf-8\">\n          <meta name=\"viewport\" content=\"width=device-width, initial-scale=1\">\n          ".toList

/-- Verbatim text extracted from server.js (template-literal segment). -/
def customWrapMid : List Char := "\n        </head>\n        ".toList

/-- Verbatim text extracted from server.js (template-literal segment). -/
def customWrapPost : List Char := "\n        </html>\n      ".toList


/-- The HTML produced by the builtin ("navneet") template of `sendEmail`
(lines 292-493): the fixed document with the recipient's first name, role
and company interpolated, and the job-details link button included only
when the Link field is truthy. -/
def navneetHtml (r : Row) : List Char :=
  builtinPart1 ++ firstNameOf r.Name.toList ++ builtinPart2 ++ r.Role.toList ++
    builtinPart3 ++ r.Company.toList ++ builtinPart4 ++
    (if truthy r.Link then condFragPre ++ r.Link.toList ++ condFragPost else []) ++
    builtinPart5 ++ r.Company.toList ++ builtinPart6

/-- JavaScript whitespace for `String.trim` (the characters that occur in
practice: space, tab, CR, LF). -/
def isJsSpace (c : Char) : Bool := c = ' ' || c = '\t' || c = '\n' || c = '\r'

/-- `job.customEmailBody.trim()` (line 632). -/
def jsTrim (s : List Char) : List Char :=
  ((s.dropWhile isJsSpace).reverse.dropWhile isJsSpace).reverse

/-- The assembled custom document (lines 635-645): doctype/head with the
fixed style block, then the trimmed caller-supplied body, then `</html>`. -/
def assembleCustom (customEmailBody : String) : List Char :=
  customWrapPre ++ emailStyles ++ customWrapMid ++
    jsTrim customEmailBody.toList ++ customWrapPost

/-- The full custom-template substitution pipeline of `sendEmail`
(lines 647-660): conditional-link resolution over the assembled document,
then the plain placeholder replacements, applied once in that order. -/
def renderCustomHtml (customEmailBody : String) (r : Row) : List Char :=
  substPlain r (resolveCond (truthy r.Link) (assembleCustom customEmailBody))

/-- Template selection inside `sendEmail` (lines 287-663): the builtin
template for userType `navneet`; the custom pipeline for userType `other`
(throwing when no custom body was supplied); an error for anything else. -/
def buildTemplate (job : Job) (r : Row) : Except String (List Char) :=
  if job.userType == "navneet" then
    Except.ok (navneetHtml r)
  else if job.userType == "other" then
    if !truthy job.customEmailBody then
      Except.error "No custom email template provided"
    else
      Except.ok (renderCustomHtml job.customEmailBody r)
  else
    Except.error "Invalid user type specified"

/-- The message handed to `transporter.sendMail` (lines 665-670). -/
structure Mail where
  fromAddr : String
  toAddr : String
  subject : String
  html : List Char
deriving DecidableEq

/-- `sendEmail` up to (but not including) the actual transport call:
template selection plus the `mailOptions` construction. -/
def renderMail (job : Job) (r : Row) : Except String Mail :=
  match buildTemplate job r with
  | Except.error e => Except.error e
  | Except.ok html =>
    Except.ok
      { fromAddr :=
          (if job.userType == "navneet" then "Navneet Khandelwal"
           else "Interview Opportunity Needed") ++ " <" ++ job.email ++ ">",
        toAddr := r.Email,
        subject := "Request for an Interview Opportunity - " ++ r.Role ++
          " at " ++ r.Company,
        html := html }

/-- The observable outcome of (part of) a delivery-loop run: the events
broadcast to subscribers, how many times the template renderer was entered,
how many times the delivery capability (`transporter.sendMail`) was
invoked, and the resulting Job Store entry. -/
structure LoopOut where
  events : List Event
  renders : Nat
  deliveries : Nat
  job : Job
deriving DecidableEq

/-- One iteration of the delivery loop of `processEmailJob`
(lines 220-265), for the 0-based index `i`.  The `deliver` oracle gives the
outcome of the `transporter.sendMail` call at each index.  A row with a
missing required field is logged and counted failed, with `continue`
skipping the progress emission; otherwise the renderer runs and the
outcome (render error, delivery error, or success) is counted, logged and
followed by a progress event. -/
def stepRecipient (deliver : Nat → Except String Unit) (i : Nat) (r : Row)
    (job : Job) : LoopOut :=
  let j1 : Job := { job with current := i + 1 }
  if missingRequired r then
    { events := [Event.log ("Skipping row " ++ toString (i + 1) ++
        ": Missing required fields")],
      renders := 0, deliveries := 0,
      job := { j1 with failed := j1.failed + 1 } }
  else
    match renderMail j1 r with
    | Except.error msg =>
      { events := [Event.log (toString (i + 1) ++ "/" ++ toString j1.total ++
          ": Failed to send email to " ++ r.Email ++ ": " ++ msg),
          Event.progress j1.total (i + 1) j1.success (j1.failed + 1)],
        renders := 1, deliveries := 0,
        job := { j1 with failed := j1.failed + 1 } }
    | Except.ok _ =>
      match deliver i with
      | Except.ok _ =>
        { events := [Event.log (toString (i + 1) ++ "/" ++ toString j1.total ++
            ": Successfully sent email to " ++ r.Email),
            Event.progress j1.total (i + 1) (j1.success + 1) j1.failed],
          renders := 1, deliveries := 1,
          job := { j1 with success := j1.success + 1 } }
      | Except.error msg =>
        { events := [Event.log (toString (i + 1) ++ "/" ++ toString j1.total ++
            ": Failed to send email to " ++ r.Email ++ ": " ++ msg),
            Event.progress j1.total (i + 1) j1.success (j1.failed + 1)],
          renders := 1, deliveries := 1,
          job := { j1 with failed := j1.failed + 1 } }

/-- The delivery loop over the remaining rows, starting at index `i`. -/
def runLoop (deliver : Nat → Except String Unit) (i : Nat) (rows : List Row)
    (job : Job) : LoopOut :=
  match rows with
  | [] => { events := [], renders := 0, deliveries := 0, job := job }
  | r :: rest =>
    let s := stepRecipient deliver i r job
    let t := runLoop deliver (i + 1) rest s.job
    { events := s.events ++ t.events, renders := s.renders + t.renders,
      deliveries := s.deliveries + t.deliveries, job := t.job }

/-- The observable outcome of a whole `processEmailJob` run: broadcast
events, renderer / delivery-capability invocation counts, and the Job
Store entry left behind for this sender identity. -/
structure JobOut where
  events : List Event
  renders : Nat
  deliveries : Nat
  store : Option Job
deriving DecidableEq

/-- `processEmailJob` (lines 188-276).  `setup` is the outcome of
`createTransporter`: on failure one error log and one `complete 0 total`
event are emitted and the job is deleted; otherwise the start log is
emitted, the loop runs over all rows, and a final `complete` event with
the final counters precedes deletion of the job. -/
def processEmailJob (setup : Except String Unit)
    (deliver : Nat → Except String Unit) (job : Job) : JobOut :=
  let j : Job := { job with status := "processing" }
  match setup with
  | Except.error msg =>
    { events := [Event.log ("Error creating email transporter: " ++ msg),
        Event.complete 0 j.total],
      renders := 0, deliveries := 0, store := none }
  | Except.ok _ =>
    let out := runLoop deliver 0 j.data j
    { events := Event.log ("Starting email sending process for " ++
        toString j.total ++ " recipients") :: out.events ++
        [Event.complete out.job.success out.job.failed],
      renders := out.renders, deliveries := out.deliveries, store := none }

/-- The request body of `POST /api/send-emails`.  `customEmailBody` is
`req.body.customEmailBody || null` (absent modelled as `""`);
`fileRows`/`manualData` are the parsed upload / parsed `req.body.data`
when present. -/
structure StartRequest where
  email : String
  password : String
  mode : String
  userType : String
  customEmailBody : String
  fileRows : Option (List Row)
  manualData : Option (List Row)

/-- The synchronous HTTP response of `POST /api/send-emails`. -/
inductive StartResult where
  | rejected (status : Nat) (message : String)
  | started (jobId : String) (total : Nat)
deriving DecidableEq

/-- Data-source resolution inside the start endpoint (lines 95-105):
csv mode requires an uploaded file, manual mode requires `req.body.data`,
any other mode leaves `data` as the empty list. -/
def resolveData (req : StartRequest) : Except (Nat × String) (List Row) :=
  if req.mode == "csv" then
    match req.fileRows with
    | none => Except.error (400, "No file uploaded")
    | some d => Except.ok d
  else if req.mode == "manual" then
    match req.manualData with
    | none => Except.error (400, "No manual data provided")
    | some d => Except.ok d
  else
    Except.ok []

/-- `POST /api/send-emails` (lines 81-146): validate credentials and the
data source, reject empty batches, and otherwise create the Job Store
entry (status `preparing`, counters zeroed) keyed by the sender email.
`jobId` stands for the generated `uuidv4()`. -/
def startJob (jobId : String) (req : StartRequest)
    (store : String → Option Job) : StartResult × (String → Option Job) :=
  if !truthy req.email || !truthy req.password then
    (StartResult.rejected 400 "Email credentials are required", store)
  else
    match resolveData req with
    | Except.error e => (StartResult.rejected e.1 e.2, store)
    | Except.ok data =>
      if data.length == 0 then
        (StartResult.rejected 400 "No valid data found", store)
      else
        let job : Job :=
          { jobId := jobId, data := data, email := req.email,
            password := req.password, userType := req.userType,
            customEmailBody := req.customEmailBody, status := "preparing",
            total := data.length, current := 0, success := 0, failed := 0 }
        (StartResult.started jobId data.length,
          fun k => if k == req.email then some job else store k)

/-- The initial push of `GET /api/send-emails-sse` (lines 163-174): if a
job exists for the sender identity, exactly one synthetic `progress`
snapshot of the current Job Store entry is written; otherwise nothing. -/
def sseSubscribe (store : String → Option Job) (email : String) : List Event :=
  match store email with
  | some job => [Event.progress job.total job.current job.success job.failed]
  | none => []

/-- The Job Store effect of `sendToClient` (lines 676-692): a `progress`
event writes its `current`/`success`/`failed` counters back into the job
for that sender identity (when one exists); every other event leaves the
store untouched. -/
def sendToClient (email : String) (ev : Event)
    (store : String → Option Job) : String → Option Job :=
  match ev with
  | Event.progress _ c s f =>
    match store email with
    | some job =>
      fun k => if k == email then
        some { job with current := c, success := s, failed := f }
      else store k
    | none => store
  | _ => store

/-! ### Lemmas about the substitution machinery -/

theorem isPrefixOf_append_self (a b : List Char) : a.isPrefixOf (a ++ b) = true := by
  rw [List.isPrefixOf_iff_prefix]
  exact List.prefix_append a b

theorem isPrefixOf_take {n m : List Char} {k : Nat}
    (h : n.isPrefixOf m = true) (hk : k ≤ n.length) : m.take k = n.take k := by
  rcases List.isPrefixOf_iff_prefix.mp h with ⟨t, rfl⟩
  rw [List.take_append_eq_append_take, Nat.sub_eq_zero_of_le hk, List.take_zero,
    List.append_nil]

theorem head_mem_of_isPrefixOf {d : Char} {n' s : List Char}
    (h : (d :: n').isPrefixOf s = true) : d ∈ s := by
  cases s with
  | nil => simp [List.isPrefixOf] at h
  | cons c t =>
    simp only [List.isPrefixOf, Bool.and_eq_true, beq_iff_eq] at h
    exact h.1 ▸ List.mem_cons_self c t

theorem scanContent_length : ∀ {t : List Char} {p : List Char × List Char},
    scanContent t = some p → p.2.length < t.length := by
  intro t
  induction t with
  | nil => intro p h; simp [scanContent] at h
  | cons c t ih =>
    intro p h
    simp only [scanContent] at h
    split at h
    · next hpre =>
      cases h
      have h7 : 0 < closeTok.length := by decide
      simp only [List.length_drop, List.length_cons]
      omega
    · split at h
      · cases h
      · rcases Option.map_eq_some'.mp h with ⟨q, hq, hqe⟩
        have := ih hq
        cases hqe
        simp only [List.length_cons]
        omega

theorem findCond_nil : findCond [] = none := by decide

theorem findCond_length {s : List Char} {p : List Char × List Char}
    (h : findCond s = some p) : p.2.length < s.length := by
  unfold findCond at h
  split at h
  · have h1 := scanContent_length h
    simp only [List.length_drop] at h1
    omega
  · cases h

theorem findCond_cons_ne {c : Char} {t : List Char} (h : ¬c = '$') :
    findCond (c :: t) = none := by
  unfold findCond
  have hb : ('$' == c) = false := beq_eq_false_iff_ne.mpr fun hh => h hh.symm
  have : openTok.isPrefixOf (c :: t) = false := by
    rw [show openTok = '$' :: "\x7bLink ? `".toList from by decide]
    simp [List.isPrefixOf, hb]
  simp [this]

theorem resolveCondAux_nil (link : Bool) (fuel : Nat) :
    resolveCondAux link fuel [] = [] := by
  cases fuel with
  | zero => rfl
  | succ f => simp [resolveCondAux, findCond_nil]

theorem resolveCondAux_congr (link : Bool) :
    ∀ (f1 f2 : Nat) (s : List Char), s.length ≤ f1 → s.length ≤ f2 →
      resolveCondAux link f1 s = resolveCondAux link f2 s := by
  intro f1
  induction f1 with
  | zero =>
    intro f2 s h1 _
    have : s = [] := List.length_eq_zero.mp (Nat.le_zero.mp h1)
    subst this
    rw [resolveCondAux_nil, resolveCondAux_nil]
  | succ f ih =>
    intro f2 s h1 h2
    cases s with
    | nil => rw [resolveCondAux_nil, resolveCondAux_nil]
    | cons c t =>
      cases f2 with
      | zero => simp at h2
      | succ g =>
        cases hf : findCond (c :: t) with
        | some p =>
          have hl := findCond_length hf
          simp only [List.length_cons] at hl h1 h2
          simp only [resolveCondAux, hf]
          rw [ih g p.2 (by omega) (by omega)]
        | none =>
          simp only [resolveCondAux, hf]
          simp only [List.length_cons] at h1 h2
          rw [ih g t (by omega) (by omega)]

theorem resolveCond_nil (link : Bool) : resolveCond link [] = [] := rfl

theorem resolveCond_cons_none {c : Char} {t : List Char} (link : Bool)
    (h : findCond (c :: t) = none) :
    resolveCond link (c :: t) = c :: resolveCond link t := by
  unfold resolveCond
  simp only [List.length_cons, resolveCondAux, h]

theorem resolveCond_found {s : List Char} {p : List Char × List Char} (link : Bool)
    (h : findCond s = some p) :
    resolveCond link s = (if link then p.1 else []) ++ resolveCond link p.2 := by
  cases s with
  | nil => rw [findCond_nil] at h; cases h
  | cons c t =>
    unfold resolveCond
    simp only [List.length_cons, resolveCondAux, h]
    congr 1
    have hl := findCond_length h
    simp only [List.length_cons] at hl
    exact resolveCondAux_congr link _ _ _ (by omega) (Nat.le_refl _)

theorem resolveCond_no_dollar {s : List Char} (link : Bool) (h : '$' ∉ s) :
    resolveCond link s = s := by
  induction s with
  | nil => rfl
  | cons c t ih =>
    have hc : ¬c = '$' := fun hh => h (hh ▸ List.mem_cons_self c t)
    rw [resolveCond_cons_none link (findCond_cons_ne hc),
      ih fun hm => h (List.mem_cons_of_mem c hm)]

theorem resolveCond_append_left {pre : List Char} (s : List Char) (link : Bool)
    (h : '$' ∉ pre) :
    resolveCond link (pre ++ s) = pre ++ resolveCond link s := by
  induction pre with
  | nil => simp
  | cons c p ih =>
    have hc : ¬c = '$' := fun hh => h (hh ▸ List.mem_cons_self c p)
    rw [List.cons_append, resolveCond_cons_none link (findCond_cons_ne hc),
      ih fun hm => h (List.mem_cons_of_mem c hm), List.cons_append]

theorem closeTok_cons : closeTok = '`' :: " : \x27\x27\x7d".toList := by decide

theorem scanContent_close (post : List Char) :
    scanContent (closeTok ++ post) = some ([], post) := by
  conv_lhs => rw [closeTok_cons, List.cons_append]
  simp only [scanContent]
  rw [← List.cons_append, ← closeTok_cons]
  simp [isPrefixOf_append_self, List.drop_left]

theorem scanContent_exact {frag : List Char} (post : List Char)
    (hb : '`' ∉ frag) (hn : '\n' ∉ frag) (hr : '\r' ∉ frag)
    (hu : '\u2028' ∉ frag) (hv : '\u2029' ∉ frag) :
    scanContent (frag ++ (closeTok ++ post)) = some (frag, post) := by
  induction frag with
  | nil => simpa using scanContent_close post
  | cons c f ih =>
    have hbe : ('`' == c) = false :=
      beq_eq_false_iff_ne.mpr fun hh => hb (hh ▸ List.mem_cons_self c f)
    have hc : closeTok.isPrefixOf (c :: (f ++ (closeTok ++ post))) = false := by
      rw [closeTok_cons]
      simp [List.isPrefixOf, hbe]
    have hcn : ¬(c = '\n' ∨ c = '\r' ∨ c = '\u2028' ∨ c = '\u2029') := by
      rintro (hh | hh | hh | hh)
      · exact hn (hh ▸ List.mem_cons_self c f)
      · exact hr (hh ▸ List.mem_cons_self c f)
      · exact hu (hh ▸ List.mem_cons_self c f)
      · exact hv (hh ▸ List.mem_cons_self c f)
    rw [List.cons_append]
    simp only [scanContent, hc, Bool.false_eq_true, if_false, if_neg hcn]
    rw [ih (fun hm => hb (List.mem_cons_of_mem c hm))
      (fun hm => hn (List.mem_cons_of_mem c hm))
      (fun hm => hr (List.mem_cons_of_mem c hm))
      (fun hm => hu (List.mem_cons_of_mem c hm))
      (fun hm => hv (List.mem_cons_of_mem c hm))]
    rfl

theorem findCond_exact {frag : List Char} (post : List Char)
    (hb : '`' ∉ frag) (hn : '\n' ∉ frag) (hr : '\r' ∉ frag)
    (hu : '\u2028' ∉ frag) (hv : '\u2029' ∉ frag) :
    findCond (openTok ++ (frag ++ (closeTok ++ post))) = some (frag, post) := by
  unfold findCond
  simp [isPrefixOf_append_self, List.drop_left,
    scanContent_exact post hb hn hr hu hv]

theorem resolveCond_block (link : Bool) {pre frag post : List Char}
    (hpre : '$' ∉ pre) (hb : '`' ∉ frag) (hn : '\n' ∉ frag) (hr : '\r' ∉ frag)
    (hu : '\u2028' ∉ frag) (hv : '\u2029' ∉ frag) :
    resolveCond link (pre ++ (openTok ++ (frag ++ (closeTok ++ post)))) =
      pre ++ ((if link then frag else []) ++ resolveCond link post) := by
  rw [resolveCond_append_left _ link hpre,
    resolveCond_found link (findCond_exact post hb hn hr hu hv)]

theorem replaceAllAux_nil (needle rep : List Char) (fuel : Nat) :
    replaceAllAux needle rep fuel [] = [] := by
  cases fuel with
  | zero => rfl
  | succ f => rfl

theorem replaceAllAux_congr (needle rep : List Char) (hne : needle ≠ []) :
    ∀ (f1 f2 : Nat) (s : List Char), s.length ≤ f1 → s.length ≤ f2 →
      replaceAllAux needle rep f1 s = replaceAllAux needle rep f2 s := by
  have hpos : 0 < needle.length := List.length_pos.mpr hne
  intro f1
  induction f1 with
  | zero =>
    intro f2 s h1 _
    have : s = [] := List.length_eq_zero.mp (Nat.le_zero.mp h1)
    subst this
    rw [replaceAllAux_nil, replaceAllAux_nil]
  | succ f ih =>
    intro f2 s h1 h2
    cases s with
    | nil => rw [replaceAllAux_nil, replaceAllAux_nil]
    | cons c t =>
      cases f2 with
      | zero => simp at h2
      | succ g =>
        simp only [List.length_cons] at h1 h2
        by_cases hp : needle.isPrefixOf (c :: t) = true
        · simp only [replaceAllAux, hp, if_true]
          have hd : ((c :: t).drop needle.length).length ≤ t.length := by
            simp only [List.length_drop, List.length_cons]
            omega
          rw [ih g _ (by omega) (by omega)]
        · have hp' : needle.isPrefixOf (c :: t) = false := by
            cases hh : needle.isPrefixOf (c :: t)
            · rfl
            · exact absurd hh hp
          simp only [replaceAllAux, hp', Bool.false_eq_true, if_false]
          rw [ih g t (by omega) (by omega)]

theorem replaceAll_cons_neg {needle : List Char} (rep : List Char) {c : Char}
    {t : List Char} (h : needle.isPrefixOf (c :: t) = false) :
    replaceAll needle rep (c :: t) = c :: replaceAll needle rep t := by
  unfold replaceAll
  simp only [List.length_cons, replaceAllAux, h, Bool.false_eq_true, if_false]

theorem replaceAll_head_match {needle : List Char} (rep suf : List Char)
    (hne : needle ≠ []) :
    replaceAll needle rep (needle ++ suf) = rep ++ replaceAll needle rep suf := by
  cases needle with
  | nil => exact absurd rfl hne
  | cons d n' =>
    unfold replaceAll
    rw [List.cons_append]
    simp only [List.length_cons, replaceAllAux]
    rw [← List.cons_append]
    simp only [isPrefixOf_append_self, if_true]
    rw [List.drop_left' (show (d :: n').length = n'.length + 1 by simp)]
    congr 1
    apply replaceAllAux_congr _ _ hne
    · simp only [List.length_append]
      omega
    · exact Nat.le_refl _

theorem replaceAll_no_head {d : Char} {n' s : List Char} (rep : List Char)
    (h : d ∉ s) : replaceAll (d :: n') rep s = s := by
  induction s with
  | nil => rfl
  | cons c t ih =>
    have hp : (d :: n').isPrefixOf (c :: t) = false := by
      have hb : (d == c) = false :=
        beq_eq_false_iff_ne.mpr fun hh => h (hh ▸ List.mem_cons_self c t)
      simp [List.isPrefixOf, hb]
    rw [replaceAll_cons_neg rep hp, ih fun hm => h (List.mem_cons_of_mem c hm)]

theorem replaceAll_append_left {d : Char} {n' pre : List Char} (rep s : List Char)
    (h : d ∉ pre) :
    replaceAll (d :: n') rep (pre ++ s) = pre ++ replaceAll (d :: n') rep s := by
  induction pre with
  | nil => simp
  | cons c p ih =>
    have hp : (d :: n').isPrefixOf (c :: (p ++ s)) = false := by
      have hb : (d == c) = false :=
        beq_eq_false_iff_ne.mpr fun hh => h (hh ▸ List.mem_cons_self c p)
      simp [List.isPrefixOf, hb]
    rw [List.cons_append, replaceAll_cons_neg rep hp,
      ih fun hm => h (List.mem_cons_of_mem c hm), List.cons_append]

theorem replaceAll_single {d : Char} {n' pre suf : List Char} (rep : List Char)
    (hpre : d ∉ pre) (hsuf : d ∉ suf) :
    replaceAll (d :: n') rep (pre ++ ((d :: n') ++ suf)) =
      pre ++ (rep ++ suf) := by
  rw [replaceAll_append_left rep _ hpre,
    replaceAll_head_match rep suf (List.cons_ne_nil d n'),
    replaceAll_no_head rep hsuf]

theorem isPrefixOf_false_of_take_ne (k : Nat) {n z y : List Char}
    (hkn : k ≤ n.length) (hkz : k ≤ z.length) (hne : n.take k ≠ z.take k) :
    n.isPrefixOf (z ++ y) = false := by
  cases hh : n.isPrefixOf (z ++ y) with
  | false => rfl
  | true =>
    have h1 := isPrefixOf_take hh hkn
    rw [List.take_append_eq_append_take, Nat.sub_eq_zero_of_le hkz,
      List.take_zero, List.append_nil] at h1
    exact absurd h1.symm hne

theorem replaceAll_skip_one {d : Char} {needle z x y : List Char} (rep : List Char)
    (hnd : needle = d :: needle.tail) (hz : z ≠ [] ∧ z.head? = some d ∧ d ∉ z.tail)
    (hp : needle.isPrefixOf (z ++ y) = false) (hx : d ∉ x) (hy : d ∉ y) :
    replaceAll needle rep (x ++ (z ++ y)) = x ++ (z ++ y) := by
  rcases hz with ⟨hz1, hz2, hz3⟩
  cases z with
  | nil => exact absurd rfl hz1
  | cons e z' =>
    have hed : e = d := by simpa using hz2
    subst hed
    simp only [List.tail_cons] at hz3
    rw [hnd, replaceAll_append_left rep _ hx, ← hnd, List.cons_append,
      replaceAll_cons_neg rep (by rw [← List.cons_append]; exact hp)]
    rw [hnd, replaceAll_no_head rep
      (by intro hm; rcases List.mem_append.mp hm with hm1 | hm1
          · exact hz3 hm1
          · exact hy hm1)]

theorem substPlain_single_company (r : Row) {pre suf : List Char}
    (hpre : '$' ∉ pre) (hsuf : '$' ∉ suf) (hco : '$' ∉ r.Company.toList) :
    substPlain r (pre ++ (companyPH ++ suf)) =
      pre ++ (r.Company.toList ++ suf) := by
  have hp1 : firstNamePH.isPrefixOf (companyPH ++ suf) = false :=
    isPrefixOf_false_of_take_ne 3 (by decide) (by decide) (by decide)
  have hp2 : namePH.isPrefixOf (companyPH ++ suf) = false :=
    isPrefixOf_false_of_take_ne 3 (by decide) (by decide) (by decide)
  have hall : '$' ∉ pre ++ (r.Company.toList ++ suf) := by
    intro hm
    rcases List.mem_append.mp hm with h1 | h1
    · exact hpre h1
    rcases List.mem_append.mp h1 with h2 | h2
    · exact hco h2
    · exact hsuf h2
  unfold substPlain
  rw [replaceAll_skip_one _ (show firstNamePH = '$' :: firstNamePH.tail from
      by decide) (by decide) hp1 hpre hsuf]
  rw [replaceAll_skip_one _ (show namePH = '$' :: namePH.tail from by decide)
      (by decide) hp2 hpre hsuf]
  rw [show companyPH = '$' :: "\x7bCompany\x7d".toList from by decide]
  rw [replaceAll_single _ hpre hsuf]
  rw [show emailPH = '$' :: "\x7bEmail\x7d".toList from by decide,
    replaceAll_no_head _ hall]
  rw [show rolePH = '$' :: "\x7bRole\x7d".toList from by decide,
    replaceAll_no_head _ hall]
  rw [show linkPH = '$' :: "\x7bLink\x7d".toList from by decide,
    replaceAll_no_head _ hall]

/-! ### Lemmas about the delivery loop -/

theorem stepRecipient_missing (deliver : Nat → Except String Unit) (i : Nat)
    (r : Row) (job : Job) (h : missingRequired r = true) :
    stepRecipient deliver i r job =
      { events := [Event.log ("Skipping row " ++ toString (i + 1) ++
          ": Missing required fields")],
        renders := 0, deliveries := 0,
        job := { job with current := i + 1, failed := job.failed + 1 } } := by
  unfold stepRecipient
  simp only [h, if_true]

theorem renderMail_other_no_body (job : Job) (r : Row)
    (hu : job.userType = "other") (hb : truthy job.customEmailBody = false) :
    renderMail job r = Except.error "No custom email template provided" := by
  unfold renderMail buildTemplate
  rw [hu]
  simp [hb]

theorem stepRecipient_no_deliver (deliver : Nat → Except String Unit) (i : Nat)
    (r : Row) (job : Job) (msg : String)
    (hm : missingRequired r = false)
    (hr : renderMail { job with current := i + 1 } r = Except.error msg) :
    stepRecipient deliver i r job =
      { events := [Event.log (toString (i + 1) ++ "/" ++ toString job.total ++
          ": Failed to send email to " ++ r.Email ++ ": " ++ msg),
          Event.progress job.total (i + 1) job.success (job.failed + 1)],
        renders := 1, deliveries := 0,
        job := { job with current := i + 1, failed := job.failed + 1 } } := by
  unfold stepRecipient
  simp only [hm, Bool.false_eq_true, if_false, hr]

theorem stepRecipient_fields (deliver : Nat → Except String Unit) (i : Nat)
    (r : Row) (job : Job) :
    (stepRecipient deliver i r job).job.total = job.total ∧
    (stepRecipient deliver i r job).job.userType = job.userType ∧
    (stepRecipient deliver i r job).job.customEmailBody = job.customEmailBody ∧
    (stepRecipient deliver i r job).job.current = i + 1 ∧
    (stepRecipient deliver i r job).job.success +
        (stepRecipient deliver i r job).job.failed =
      job.success + job.failed + 1 := by
  unfold stepRecipient
  dsimp only
  split
  · exact ⟨rfl, rfl, rfl, rfl, by dsimp only; omega⟩
  · split
    · exact ⟨rfl, rfl, rfl, rfl, by dsimp only; omega⟩
    · split
      · exact ⟨rfl, rfl, rfl, rfl, by dsimp only; omega⟩
      · exact ⟨rfl, rfl, rfl, rfl, by dsimp only; omega⟩

theorem stepRecipient_progress (deliver : Nat → Except String Unit) (i : Nat)
    (r : Row) (job : Job) {e : Event}
    (he : e ∈ (stepRecipient deliver i r job).events) (t c s f : Nat)
    (hp : e = Event.progress t c s f) :
    t = job.total ∧ c = i + 1 ∧ s + f = job.success + job.failed + 1 := by
  subst hp
  unfold stepRecipient at he
  dsimp only at he
  split at he
  · simp at he
  · split at he
    · simp at he
      obtain ⟨h1, h2, h3, h4⟩ := he
      refine ⟨by omega, by omega, by omega⟩
    · split at he
      · simp at he
        obtain ⟨h1, h2, h3, h4⟩ := he
        refine ⟨by omega, by omega, by omega⟩
      · simp at he
        obtain ⟨h1, h2, h3, h4⟩ := he
        refine ⟨by omega, by omega, by omega⟩

theorem runLoop_progress_inv (deliver : Nat → Except String Unit) :
    ∀ (rows : List Row) (i : Nat) (job : Job),
      job.success + job.failed = i → i + rows.length ≤ job.total →
      ∀ e ∈ (runLoop deliver i rows job).events, ∀ t c s f,
        e = Event.progress t c s f → c = s + f ∧ c ≤ t := by
  intro rows
  induction rows with
  | nil =>
    intro i job h1 h2 e he
    simp [runLoop] at he
  | cons r rest ih =>
    intro i job h1 h2 e he t c s f hp
    simp only [runLoop] at he
    rw [List.mem_append] at he
    simp only [List.length_cons] at h2
    rcases he with he | he
    · have h3 := stepRecipient_progress deliver i r job he t c s f hp
      omega
    · have hf := stepRecipient_fields deliver i r job
      exact ih (i + 1) (stepRecipient deliver i r job).job (by omega)
        (by omega) e he t c s f hp

theorem runLoop_other_no_body (deliver : Nat → Except String Unit) :
    ∀ (rows : List Row) (i : Nat) (job : Job),
      job.userType = "other" → truthy job.customEmailBody = false →
      (runLoop deliver i rows job).deliveries = 0 ∧
      (runLoop deliver i rows job).job.success = job.success ∧
      (runLoop deliver i rows job).job.failed = job.failed + rows.length := by
  intro rows
  induction rows with
  | nil =>
    intro i job hu hb
    simp [runLoop]
  | cons r rest ih =>
    intro i job hu hb
    by_cases hm : missingRequired r = true
    · have hstep := stepRecipient_missing deliver i r job hm
      have := ih (i + 1) { job with current := i + 1, failed := job.failed + 1 }
        hu hb
      simp only [runLoop, hstep] at *
      refine ⟨by omega, by simpa using this.2.1, ?_⟩
      have h3 := this.2.2
      simp only [List.length_cons]
      simp at h3 ⊢
      omega
    · have hm' : missingRequired r = false := by
        cases hh : missingRequired r
        · rfl
        · exact absurd hh hm
      have hr : renderMail { job with current := i + 1 } r =
          Except.error "No custom email template provided" :=
        renderMail_other_no_body _ r hu hb
      have hstep := stepRecipient_no_deliver deliver i r job _ hm' hr
      have := ih (i + 1) { job with current := i + 1, failed := job.failed + 1 }
        hu hb
      simp only [runLoop, hstep] at *
      refine ⟨by omega, by simpa using this.2.1, ?_⟩
      have h3 := this.2.2
      simp only [List.length_cons]
      simp at h3 ⊢
      omega

theorem splitOnChar_head (sep : Char) :
    ∀ l : List Char, splitOnChar sep l ≠ [] ∧
      (splitOnChar sep l).headD [] = l.takeWhile (fun c => !(c == sep)) := by
  intro l
  induction l with
  | nil => exact ⟨by simp [splitOnChar], rfl⟩
  | cons c t ih =>
    obtain ⟨hne, hh⟩ := ih
    cases hs : splitOnChar sep t with
    | nil => exact absurd hs hne
    | cons s rest =>
      rw [hs] at hh
      by_cases hc : c = sep
      · subst hc
        refine ⟨by simp [splitOnChar, hs], ?_⟩
        simp [splitOnChar, hs, List.takeWhile_cons]
      · have hbe : (c == sep) = false := beq_eq_false_iff_ne.mpr hc
        refine ⟨by simp [splitOnChar, hs, hc], ?_⟩
        simp only [splitOnChar, hs, hc, if_false, List.takeWhile_cons, hbe,
          Bool.not_false, if_true, List.headD_cons]
        simp only [List.headD_cons] at hh
        rw [hh]

/-! ### Claim theorems -/

/-- C1: for every job and every `progress` event emitted by
`processEmailJob`, the event's counters satisfy `current = success + failed`
and `current ≤ total` (each processed recipient sets `current` to its
1-based index and increments exactly one of `success`/`failed`; skipped
rows emit no `progress` event, so every emitted `progress` event is past at
least one processed recipient). -/
theorem c1_progress_counters (setup : Except String Unit)
    (deliver : Nat → Except String Unit) (job : Job)
    (hs : job.success = 0) (hf : job.failed = 0)
    (ht : job.total = job.data.length)
    (e : Event) (he : e ∈ (processEmailJob setup deliver job).events)
    (t c s f : Nat) (hp : e = Event.progress t c s f) :
    c = s + f ∧ c ≤ t := by
  cases setup with
  | error msg =>
    subst hp
    simp [processEmailJob] at he
  | ok u =>
    simp only [processEmailJob] at he
    rw [List.mem_append, List.mem_cons, List.mem_singleton] at he
    rcases he with (he | he) | he
    · subst hp; simp at he
    · exact runLoop_progress_inv deliver job.data 0
        { job with status := "processing" } (by simp [hs, hf])
        (by simp [ht]) e he t c s f hp
    · subst hp; simp at he

/-- Witness for C1: a concrete one-recipient job whose run emits
`progress 1 1 1 0`, which satisfies the invariant. -/
theorem c1_progress_counters_witness :
    Event.progress 1 1 1 0 ∈
      (processEmailJob (Except.ok ()) (fun _ => Except.ok ())
        { jobId := "j1", data := [⟨"Bob Lee", "bob@y.com", "Acme", "Dev", ""⟩],
          email := "a@x.com", password := "pw", userType := "navneet",
          customEmailBody := "", status := "preparing", total := 1,
          current := 0, success := 0, failed := 0 }).events ∧
    (1 = 1 + 0 ∧ 1 ≤ 1) := by
  constructor
  · decide
  · exact c1_progress_counters (Except.ok ()) (fun _ => Except.ok ())
      { jobId := "j1", data := [⟨"Bob Lee", "bob@y.com", "Acme", "Dev", ""⟩],
        email := "a@x.com", password := "pw", userType := "navneet",
        customEmailBody := "", status := "preparing", total := 1,
        current := 0, success := 0, failed := 0 }
      rfl rfl rfl (Event.progress 1 1 1 0) (by decide) 1 1 1 0 rfl

/-- C2: a recipient missing a required field is logged as skipped, counted
failed, and the loop continues with the next recipient; the renderer and
the delivery capability are not invoked for it (both invocation counts are
zero for that step). -/
theorem c2_missing_field_skipped (deliver : Nat → Except String Unit)
    (i : Nat) (r : Row) (job : Job) (rest : List Row)
    (h : missingRequired r = true) :
    stepRecipient deliver i r job =
      { events := [Event.log ("Skipping row " ++ toString (i + 1) ++
          ": Missing required fields")],
        renders := 0, deliveries := 0,
        job := { job with current := i + 1, failed := job.failed + 1 } } ∧
    (runLoop deliver i (r :: rest) job).events =
      Event.log ("Skipping row " ++ toString (i + 1) ++
          ": Missing required fields") ::
        (runLoop deliver (i + 1) rest
          { job with current := i + 1, failed := job.failed + 1 }).events := by
  refine ⟨stepRecipient_missing deliver i r job h, ?_⟩
  simp [runLoop, stepRecipient_missing deliver i r job h]

/-- Witness for C2: a concrete row with an empty Name. -/
theorem c2_missing_field_skipped_witness :
    missingRequired ⟨"", "x@y.com", "Acme", "Dev", ""⟩ = true ∧
    stepRecipient (fun _ => Except.ok ()) 0 ⟨"", "x@y.com", "Acme", "Dev", ""⟩
      { jobId := "j2", data := [], email := "b@x.com", password := "pw",
        userType := "navneet", customEmailBody := "", status := "processing",
        total := 3, current := 0, success := 0, failed := 0 } =
      { events := [Event.log "Skipping row 1: Missing required fields"],
        renders := 0, deliveries := 0,
        job :=
          { jobId := "j2", data := [], email := "b@x.com",
            password := "pw", userType := "navneet", customEmailBody := "",
            status := "processing", total := 3, current := 1, success := 0,
            failed := 1 } } :=
  ⟨by decide,
    (c2_missing_field_skipped (fun _ => Except.ok ()) 0 _ _ [] (by decide)).1⟩

/-- C6: when transporter construction fails, exactly one `log` event is
followed by exactly one `complete` event with `success = 0` and
`failed = total`, the delivery capability is never invoked, and the job is
removed from the Job Store. -/
theorem c6_setup_failure (msg : String) (deliver : Nat → Except String Unit)
    (job : Job) :
    processEmailJob (Except.error msg) deliver job =
      { events := [Event.log ("Error creating email transporter: " ++ msg),
          Event.complete 0 job.total],
        renders := 0, deliveries := 0, store := none } := rfl

/-- C7: subscribing pushes exactly one `progress` snapshot of the current
Job Store entry when one exists for the identity, and nothing otherwise. -/
theorem c7_subscribe_snapshot (store : String → Option Job) (email : String) :
    (∀ job, store email = some job →
      sseSubscribe store email =
        [Event.progress job.total job.current job.success job.failed]) ∧
    (store email = none → sseSubscribe store email = []) := by
  constructor
  · intro job h
    simp [sseSubscribe, h]
  · intro h
    simp [sseSubscribe, h]

/-- Witness for C7: a store holding one job, and the empty store. -/
theorem c7_subscribe_snapshot_witness :
    sseSubscribe
      (fun k => if k == "a@x.com" then
        some
          { jobId := "j7", data := [], email := "a@x.com", password := "pw",
            userType := "navneet", customEmailBody := "", status := "processing",
            total := 5, current := 2, success := 1, failed := 1 }
      else none) "a@x.com" = [Event.progress 5 2 1 1] ∧
    sseSubscribe (fun _ => none) "b@y.com" = [] :=
  ⟨(c7_subscribe_snapshot _ "a@x.com").1 _ rfl,
    (c7_subscribe_snapshot (fun _ => none) "b@y.com").2 rfl⟩

/-- C8: template rendering is deterministic and idempotent — it depends
only on the recipient record, the template selector (`userType`), the
custom body and the sender address, so rendering twice (at any two moments
of a job's life, whatever the counters or status) yields byte-identical
subject and HTML. -/
theorem c8_render_deterministic (r : Row) (ut body em : String)
    (id1 id2 pw1 pw2 st1 st2 : String) (d1 d2 : List Row)
    (t1 t2 c1 c2 s1 s2 f1 f2 : Nat) :
    renderMail
      { jobId := id1, data := d1, email := em, password := pw1,
        userType := ut, customEmailBody := body, status := st1, total := t1,
        current := c1, success := s1, failed := f1 } r =
    renderMail
      { jobId := id2, data := d2, email := em, password := pw2,
        userType := ut, customEmailBody := body, status := st2, total := t2,
        current := c2, success := s2, failed := f2 } r := rfl

/-- C10: publishing an event mutates the Job Store only for `progress`
events, and then only the `current`, `success` and `failed` fields of the
addressed identity's entry (all other fields and all other identities are
untouched); `log` and `complete` events leave the store unchanged. -/
theorem c10_publish_frame (email : String) (store : String → Option Job) :
    (∀ t c s f job, store email = some job →
      (sendToClient email (Event.progress t c s f) store) email =
        some { job with current := c, success := s, failed := f } ∧
      (∀ k, ¬k = email →
        (sendToClient email (Event.progress t c s f) store) k = store k) ∧
      ({ job with current := c, success := s, failed := f }).total = job.total ∧
      ({ job with current := c, success := s, failed := f }).status = job.status ∧
      ({ job with current := c, success := s, failed := f }).jobId = job.jobId ∧
      ({ job with current := c, success := s, failed := f }).data = job.data ∧
      ({ job with current := c, success := s, failed := f }).userType =
        job.userType ∧
      ({ job with current := c, success := s, failed := f }).customEmailBody =
        job.customEmailBody ∧
      ({ job with current := c, success := s, failed := f }).email = job.email ∧
      ({ job with current := c, success := s, failed := f }).password =
        job.password ∧
      ({ job with current := c, success := s, failed := f }).current = c ∧
      ({ job with current := c, success := s, failed := f }).success = s ∧
      ({ job with current := c, success := s, failed := f }).failed = f) ∧
    (∀ t c s f, store email = none →
      sendToClient email (Event.progress t c s f) store = store) ∧
    (∀ m, sendToClient email (Event.log m) store = store) ∧
    (∀ s f, sendToClient email (Event.complete s f) store = store) := by
  refine ⟨?_, ?_, fun m => rfl, fun s f => rfl⟩
  · intro t c s f job h
    refine ⟨?_, ?_, rfl, rfl, rfl, rfl, rfl, rfl, rfl, rfl, rfl, rfl, rfl⟩
    · simp [sendToClient, h]
    · intro k hk
      have hbe : (k == email) = false := beq_eq_false_iff_ne.mpr hk
      simp [sendToClient, h, hbe]
  · intro t c s f h
    simp [sendToClient, h]

/-- Witness for C10: a concrete store with one job, updated by a concrete
`progress` event. -/
theorem c10_publish_frame_witness :
    (sendToClient "a@x.com" (Event.progress 5 3 2 1)
      (fun k => if k == "a@x.com" then
        some
          { jobId := "j10", data := [], email := "a@x.com",
            password := "pw", userType := "other", customEmailBody := "b",
            status := "processing", total := 5, current := 2, success := 1,
            failed := 1 }
      else none)) "a@x.com" =
      some
        { jobId := "j10", data := [], email := "a@x.com", password := "pw",
          userType := "other", customEmailBody := "b", status := "processing",
          total := 5, current := 3, success := 2, failed := 1 } ∧
    sendToClient "a@x.com" (Event.log "hello")
      (fun _ => (none : Option Job)) = (fun _ => none) :=
  ⟨((c10_publish_frame "a@x.com" _).1 5 3 2 1 _ rfl).1,
    (c10_publish_frame "a@x.com" (fun _ => none)).2.2.1 "hello"⟩

/-- C3 counterexample: a start request that selects the custom template
variant (`userType = "other"`) and supplies no custom body is accepted with
status 200 and a Job Store entry is created for the sender identity —
`startJob` never inspects `userType`/`customEmailBody`, contradicting the
claim that such a start is rejected before any job is created. -/
theorem c3_counterexample :
    ((startJob "job-1"
        { email := "a@x.com", password := "pw", mode := "manual",
          userType := "other", customEmailBody := "",
          fileRows := none,
          manualData := some [⟨"Bob Lee", "bob@y.com", "Acme", "Dev", ""⟩] }
        (fun _ => none)).2 "a@x.com").isSome = true ∧
    (startJob "job-1"
        { email := "a@x.com", password := "pw", mode := "manual",
          userType := "other", customEmailBody := "",
          fileRows := none,
          manualData := some [⟨"Bob Lee", "bob@y.com", "Acme", "Dev", ""⟩] }
        (fun _ => none)).1 = StartResult.started "job-1" 1 :=
  ⟨rfl, rfl⟩

/-- C3 (amended): a custom-variant start request with no custom body is
*not* rejected — the job is created in the Job Store and processing starts;
the missing body is then detected per recipient inside the loop, every
recipient is counted failed with zero delivery-capability invocations, and
the run completes with `success = 0`, `failed = total` before the job is
removed. -/
theorem c3_custom_no_body_amended (jobIdv : String) (req : StartRequest)
    (store : String → Option Job) (deliver : Nat → Except String Unit)
    (rows : List Row)
    (hem : truthy req.email = true) (hpw : truthy req.password = true)
    (hmo : req.mode = "manual") (hda : req.manualData = some rows)
    (hne : rows ≠ [])
    (hut : req.userType = "other") (hbo : truthy req.customEmailBody = false) :
    ∃ job, (startJob jobIdv req store).2 req.email = some job ∧
      (startJob jobIdv req store).1 = StartResult.started jobIdv rows.length ∧
      (processEmailJob (Except.ok ()) deliver job).deliveries = 0 ∧
      (processEmailJob (Except.ok ()) deliver job).events.getLast? =
        some (Event.complete 0 rows.length) ∧
      (processEmailJob (Except.ok ()) deliver job).store = none := by
  have hguard : (!truthy req.email || !truthy req.password) = false := by
    rw [hem, hpw]; rfl
  have hcsv : (req.mode == "csv") = false := by rw [hmo]; rfl
  have hman : (req.mode == "manual") = true := by rw [hmo]; rfl
  have hlen : (rows.length == 0) = false :=
    beq_eq_false_iff_ne.mpr fun hh => hne (List.length_eq_zero.mp hh)
  have hsj : startJob jobIdv req store =
      (StartResult.started jobIdv rows.length,
        fun k => if k == req.email then
          some
            { jobId := jobIdv, data := rows, email := req.email,
              password := req.password, userType := req.userType,
              customEmailBody := req.customEmailBody, status := "preparing",
              total := rows.length, current := 0, success := 0, failed := 0 }
        else store k) := by
    unfold startJob resolveData
    rw [hguard, hcsv, hman, hda]
    simp [hlen]
  have hloop := runLoop_other_no_body deliver rows 0
    { jobId := jobIdv, data := rows, email := req.email,
      password := req.password, userType := req.userType,
      customEmailBody := req.customEmailBody, status := "processing",
      total := rows.length, current := 0, success := 0, failed := 0 }
    (by simpa using hut) (by simpa using hbo)
  refine
    ⟨{ jobId := jobIdv, data := rows, email := req.email,
       password := req.password, userType := req.userType,
       customEmailBody := req.customEmailBody, status := "preparing",
       total := rows.length, current := 0, success := 0, failed := 0 },
     ?_, ?_, ?_, ?_, ?_⟩
  · rw [hsj]
    simp
  · rw [hsj]
  · simpa only [processEmailJob] using hloop.1
  · simp only [processEmailJob, List.getLast?_concat]
    rw [hloop.2.1, hloop.2.2]
    simp
  · simp only [processEmailJob]

/-- Witness for the amended C3 at a concrete request. -/
theorem c3_custom_no_body_amended_witness :
    ∃ job, (startJob "job-9"
        { email := "c@x.com", password := "pw", mode := "manual",
          userType := "other", customEmailBody := "",
          fileRows := none,
          manualData := some [⟨"Amy Poe", "amy@y.com", "Initech", "PM", ""⟩] }
        (fun _ => none)).2 "c@x.com" = some job ∧
      (startJob "job-9"
        { email := "c@x.com", password := "pw", mode := "manual",
          userType := "other", customEmailBody := "",
          fileRows := none,
          manualData := some [⟨"Amy Poe", "amy@y.com", "Initech", "PM", ""⟩] }
        (fun _ => none)).1 = StartResult.started "job-9" 1 ∧
      (processEmailJob (Except.ok ()) (fun _ => Except.ok ()) job).deliveries
        = 0 ∧
      (processEmailJob (Except.ok ()) (fun _ => Except.ok ())
        job).events.getLast? = some (Event.complete 0 1) ∧
      (processEmailJob (Except.ok ()) (fun _ => Except.ok ()) job).store
        = none :=
  c3_custom_no_body_amended "job-9" _ (fun _ => none) (fun _ => Except.ok ())
    [⟨"Amy Poe", "amy@y.com", "Initech", "PM", ""⟩]
    (by decide) (by decide) rfl rfl (by decide) rfl (by decide)

/-- C4: in the custom-template pipeline, conditional-link resolution is
applied to the template text before plain placeholder substitution, and the
plain pass is applied exactly once to the already-resolved text (a
replacement is never rescanned), so a plain placeholder occurring inside
the conditional fragment is substituted.  Stated as the definitional
pipeline identity of `renderCustomHtml` plus the computation on a general
template whose conditional fragment contains `${Company}`. -/
theorem c4_substitution_order (r : Row) (pre f1 f2 post : List Char)
    (hlink : truthy r.Link = true)
    (hpre : '$' ∉ pre) (hpost : '$' ∉ post)
    (hf1d : '$' ∉ f1) (hf2d : '$' ∉ f2)
    (hb1 : '`' ∉ f1) (hb2 : '`' ∉ f2)
    (hn1 : '\n' ∉ f1) (hn2 : '\n' ∉ f2)
    (hr1 : '\r' ∉ f1) (hr2 : '\r' ∉ f2)
    (hu1 : '\u2028' ∉ f1) (hu2 : '\u2028' ∉ f2)
    (hv1 : '\u2029' ∉ f1) (hv2 : '\u2029' ∉ f2)
    (hco : '$' ∉ r.Company.toList) :
    (∀ body, renderCustomHtml body r =
      substPlain r (resolveCond (truthy r.Link) (assembleCustom body))) ∧
    substPlain r (resolveCond (truthy r.Link)
        (pre ++ (openTok ++ ((f1 ++ (companyPH ++ f2)) ++
          (closeTok ++ post))))) =
      (pre ++ f1) ++ (r.Company.toList ++ (f2 ++ post)) := by
  refine ⟨fun body => rfl, ?_⟩
  have hfb : '`' ∉ f1 ++ (companyPH ++ f2) := by
    intro hm
    rcases List.mem_append.mp hm with h | h
    · exact hb1 h
    rcases List.mem_append.mp h with h | h
    · revert h; decide
    · exact hb2 h
  have hfn : '\n' ∉ f1 ++ (companyPH ++ f2) := by
    intro hm
    rcases List.mem_append.mp hm with h | h
    · exact hn1 h
    rcases List.mem_append.mp h with h | h
    · revert h; decide
    · exact hn2 h
  have hfr : '\r' ∉ f1 ++ (companyPH ++ f2) := by
    intro hm
    rcases List.mem_append.mp hm with h | h
    · exact hr1 h
    rcases List.mem_append.mp h with h | h
    · revert h; decide
    · exact hr2 h
  have hfu : '\u2028' ∉ f1 ++ (companyPH ++ f2) := by
    intro hm
    rcases List.mem_append.mp hm with h | h
    · exact hu1 h
    rcases List.mem_append.mp h with h | h
    · revert h; decide
    · exact hu2 h
  have hfv : '\u2029' ∉ f1 ++ (companyPH ++ f2) := by
    intro hm
    rcases List.mem_append.mp hm with h | h
    · exact hv1 h
    rcases List.mem_append.mp h with h | h
    · revert h; decide
    · exact hv2 h
  rw [resolveCond_block (truthy r.Link) hpre hfb hfn hfr hfu hfv, hlink]
  simp only [if_true]
  rw [resolveCond_no_dollar true hpost]
  have hps : pre ++ ((f1 ++ (companyPH ++ f2)) ++ post) =
      (pre ++ f1) ++ (companyPH ++ (f2 ++ post)) := by
    simp [List.append_assoc]
  rw [hps]
  have hpre2 : '$' ∉ pre ++ f1 := by
    intro hm
    rcases List.mem_append.mp hm with h | h
    · exact hpre h
    · exact hf1d h
  have hsuf2 : '$' ∉ f2 ++ post := by
    intro hm
    rcases List.mem_append.mp hm with h | h
    · exact hf2d h
    · exact hpost h
  exact substPlain_single_company r hpre2 hsuf2 hco

/-- Witness for C4 at a concrete record and template. -/
theorem c4_substitution_order_witness :
    substPlain ⟨"Jane Roe", "jane@y.com", "Acme", "Dev", "http://l"⟩
        (resolveCond (truthy ("http://l" : String))
          ("A ".toList ++ (openTok ++ (("see ".toList ++
            (companyPH ++ " now".toList)) ++ (closeTok ++ " B".toList))))) =
      ("A ".toList ++ "see ".toList) ++
        ("Acme".toList ++ (" now".toList ++ " B".toList)) :=
  (c4_substitution_order ⟨"Jane Roe", "jane@y.com", "Acme", "Dev", "http://l"⟩
    "A ".toList "see ".toList " now".toList " B".toList
    (by decide) (by decide) (by decide) (by decide) (by decide) (by decide)
    (by decide) (by decide) (by decide) (by decide) (by decide) (by decide)
    (by decide) (by decide) (by decide) (by decide)).2

/-- C5: conditional-link substitution — with a non-empty link field the
resolved text contains exactly the conditional fragment in place of the
block; with an empty/absent link field the whole block is removed and no
conditional-placeholder syntax remains in the output. -/
theorem c5_conditional_link (r : Row) (pre frag post : List Char)
    (hpre : '$' ∉ pre) (hpost : '$' ∉ post)
    (hb : '`' ∉ frag) (hn : '\n' ∉ frag) (hr : '\r' ∉ frag)
    (hu : '\u2028' ∉ frag) (hv : '\u2029' ∉ frag) :
    (truthy r.Link = true →
      resolveCond (truthy r.Link)
          (pre ++ (openTok ++ (frag ++ (closeTok ++ post)))) =
        pre ++ (frag ++ post)) ∧
    (truthy r.Link = false →
      resolveCond (truthy r.Link)
          (pre ++ (openTok ++ (frag ++ (closeTok ++ post)))) =
        pre ++ post ∧
      ¬∃ x y, pre ++ post = x ++ (openTok ++ y)) := by
  constructor
  · intro hl
    rw [resolveCond_block (truthy r.Link) hpre hb hn hr hu hv, hl]
    simp only [if_true]
    rw [resolveCond_no_dollar true hpost]
  · intro hl
    constructor
    · rw [resolveCond_block (truthy r.Link) hpre hb hn hr hu hv, hl]
      simp only [Bool.false_eq_true, if_false, List.nil_append]
      rw [resolveCond_no_dollar false hpost]
    · rintro ⟨x, y, hxy⟩
      have hd : '$' ∈ openTok := by decide
      have hmem : '$' ∈ pre ++ post := by
        rw [hxy]
        exact List.mem_append.mpr (Or.inr (List.mem_append.mpr (Or.inl hd)))
      rcases List.mem_append.mp hmem with h | h
      · exact hpre h
      · exact hpost h

/-- Witness for C5: a record with a non-empty link keeps the fragment; a
record with an empty link removes the block with no leftover syntax. -/
theorem c5_conditional_link_witness :
    resolveCond (truthy ("http://x" : String))
        ("A ".toList ++ (openTok ++ ("FRAG".toList ++
          (closeTok ++ " B".toList)))) =
      "A ".toList ++ ("FRAG".toList ++ " B".toList) ∧
    (resolveCond (truthy ("" : String))
        ("A ".toList ++ (openTok ++ ("FRAG".toList ++
          (closeTok ++ " B".toList)))) =
      "A ".toList ++ " B".toList ∧
      ¬∃ x y, "A ".toList ++ " B".toList = x ++ (openTok ++ y)) :=
  ⟨(c5_conditional_link ⟨"N", "e@x", "C", "R", "http://x"⟩
      "A ".toList "FRAG".toList " B".toList
      (by decide) (by decide) (by decide) (by decide) (by decide)
      (by decide) (by decide)).1 (by decide),
    (c5_conditional_link ⟨"N", "e@x", "C", "R", ""⟩
      "A ".toList "FRAG".toList " B".toList
      (by decide) (by decide) (by decide) (by decide) (by decide)
      (by decide) (by decide)).2 (by decide)⟩

/-- C9 counterexample: the code computes `Name.split(' ')[0]`, which is not
the first *whitespace*-delimited token: for the name `"John\tDoe"` the code
renders with `"John\tDoe"` while the spec's wording yields `"John"`. -/
theorem c9_counterexample :
    firstNameOf "John\tDoe".toList = "John\tDoe".toList ∧
    specFirstWhitespaceToken "John\tDoe".toList = "John".toList ∧
    firstNameOf "John\tDoe".toList ≠
      specFirstWhitespaceToken "John\tDoe".toList :=
  ⟨by decide, by decide, by decide⟩

/-- C9 (amended): the first name used in rendering equals the first
*space*-delimited token of the name field — the longest prefix containing
no space character; other whitespace (for example a tab) does not delimit,
and a name beginning with a space yields an empty first name. -/
theorem c9_first_name_amended (name : List Char) :
    firstNameOf name = name.takeWhile (fun c => !(c == ' ')) :=
  (splitOnChar_head ' ' name).2
